import Mathlib

/-!
Verification of the billboard-sentinel compliance core.

Shallow embedding of `backend/app/geofence.py`, `backend/app/rules.py` and
`backend/app/size_estimation.py`.

Modelling conventions:
* Python floats are exact rationals at runtime, so purely arithmetic code
  (the rules engine, the ray-casting polygon test) is embedded over `ℚ`,
  and theorems about it quantify over the distance function that the
  Python code obtains from `math` trigonometry.
* Code whose values are genuinely transcendental (the haversine formula,
  the camera model) is embedded over `ℝ` with Mathlib's `Real.sin`,
  `Real.arcsin`, `Real.sqrt`, `Real.arctan`.
* Python exceptions are modelled with `Except String`; `None` with
  `Option`; Python string truthiness (`not s` true for `None` and `""`)
  is modelled explicitly.
* `f"{x:.1f}"`-style formatting is modelled by `formatFixed1` below using
  Mathlib's `round` (round-half-up; CPython rounds the underlying double
  half-to-even — the two agree on every value these proofs evaluate).
-/

namespace BillboardSentinel

/-! ## Geometry: `BillboardGeofence._point_in_polygon` (geofence.py 181-199)

The Python loop keeps two pieces of state: the `inside` flag and the local
variable `xinters`, which is only (re)assigned when the current edge is
non-horizontal; reading it before any assignment would raise
`UnboundLocalError`, which the embedding surfaces as an `Except.error`
(lemma `pipStep_isOk` below shows that read is unreachable).
An empty polygon raises `IndexError` at `polygon[0]`. -/

/-- One iteration of the ray-casting loop of `_point_in_polygon`, for the edge
`p1 → p2`, acting on the state `(inside, xinters)`. -/
def pipStep {α : Type} [LinearOrderedField α] (x y : α) (p1 p2 : α × α)
    (st : Bool × Option α) : Except String (Bool × Option α) :=
  let p1x := p1.1
  let p1y := p1.2
  let p2x := p2.1
  let p2y := p2.2
  if y > min p1y p2y ∧ y ≤ max p1y p2y ∧ x ≤ max p1x p2x then
    let xi : Option α :=
      if p1y ≠ p2y then some ((y - p1y) * (p2x - p1x) / (p2y - p1y) + p1x) else st.2
    if p1x = p2x then Except.ok (!st.1, xi)
    else
      match xi with
      | some v => Except.ok (if x ≤ v then !st.1 else st.1, xi)
      | none => Except.error "UnboundLocalError"
  else Except.ok (st.1, st.2)

/-- The ray-casting loop of `_point_in_polygon` over the list of edges. -/
def pipGo {α : Type} [LinearOrderedField α] (x y : α) :
    List ((α × α) × (α × α)) → Bool × Option α → Except String (Bool × Option α)
  | [], st => Except.ok st
  | e :: es, st =>
    match pipStep x y e.1 e.2 st with
    | Except.ok st1 => pipGo x y es st1
    | Except.error msg => Except.error msg

/-- Embedding of `BillboardGeofence._point_in_polygon(lat, lon, polygon)`: ray casting with
`x, y = lon, lat`; the edges are `(polygon[i-1], polygon[i % n])` for
`i = 1..n`, i.e. consecutive pairs with the polygon implicitly closed. -/
def point_in_polygon {α : Type} [LinearOrderedField α] (lat lon : α)
    (polygon : List (α × α)) : Except String Bool :=
  match polygon with
  | [] => Except.error "IndexError: list index out of range"
  | p0 :: rest =>
    (pipGo lon lat (List.zip (p0 :: rest) (rest ++ [p0])) (false, none)).map Prod.fst

/-! ## Python number formatting helpers -/

/-- Model of CPython `f"{q:.1f}"` (one decimal place). Mathlib's `round` is
round-half-up while CPython rounds the double half-to-even; every value
formatted in these proofs is an exact multiple of 1/10, where both agree. -/
def formatFixed1 {α : Type} [LinearOrderedField α] [FloorRing α] (q : α) : String :=
  let n : ℤ := round (10 * q)
  let a : ℤ := if n < 0 then -n else n
  let core := toString (a / 10) ++ "." ++ toString (a % 10)
  if n < 0 then "-" ++ core else core

/-- Model of CPython `f"{q:.0f}"` (no decimal places). -/
def formatFixed0 {α : Type} [LinearOrderedField α] [FloorRing α] (q : α) : String :=
  toString (round q)

/-- Model of CPython `f"{q}"` for a float `q`: CPython prints the shortest
round-tripping decimal. The embedding is exact for integral values (CPython
prints `48.0` for the float `48.0`) and falls back to one decimal place
otherwise; no theorem below inspects the fallback case. -/
def pyFloatRepr {α : Type} [LinearOrderedField α] [FloorRing α] (q : α) : String :=
  if Int.fract q = 0 then toString (round q) ++ ".0" else formatFixed1 q

/-- Python string truthiness for an optional string: `not s` is true exactly
for `None` and `""`. -/
def pyFalsyStr : Option String → Bool
  | none => true
  | some s => s = ""

/-- Model of Python `str.strip()`: trim whitespace from both ends. (Python
also trims a few rarer Unicode space characters; every string these proofs
evaluate uses plain ASCII blanks, where the two agree.) -/
def pyStrip (s : String) : String :=
  ⟨((s.data.dropWhile Char.isWhitespace).reverse.dropWhile Char.isWhitespace).reverse⟩

/-- Model of Python `str.lower()` (ASCII case folding; the fixed keyword list
is pure ASCII). -/
def pyLower (s : String) : String := ⟨s.data.map Char.toLower⟩

/-- Python `kw in text` substring membership on strings. -/
def strContainsSub (hay needle : String) : Bool :=
  (List.range (hay.toList.length + 1)).any fun i =>
    needle.toList.isPrefixOf (hay.toList.drop i)

/-! ## Rules engine data model (rules.py 12-91) -/

/-- Embedding of `ViolationType` enum (rules.py 12-18). -/
inductive ViolationType where
  | size_violation
  | placement_violation
  | license_missing
  | license_invalid
  | obscene_content
  | junction_proximity
  deriving DecidableEq

/-- Embedding of `ViolationRule` dataclass (rules.py 20-27). Thresholds are exact
rationals (Python floats). -/
structure ViolationRule where
  rule_type : ViolationType
  threshold : ℚ
  severity : ℤ
  description : String
  enabled : Bool := true
  deriving DecidableEq

/-- Embedding of `Detection` dataclass (rules.py 29-37). -/
structure Detection where
  bbox : List ℚ
  est_width_m : ℚ
  est_height_m : ℚ
  license_id : Option String
  ocr_text : Option String
  confidence : ℚ
  deriving DecidableEq

/-- Values stored in a violation's free-form `metadata` dict. -/
inductive MetaVal where
  | num (q : ℚ)
  | str (s : String)
  | optStr (o : Option String)
  | strList (l : List String)
  deriving DecidableEq

/-- Embedding of `Violation` dataclass (rules.py 39-46); `metadata` keeps the dict as a
keyed association list. -/
structure Violation where
  rule_type : ViolationType
  severity : ℤ
  reason : String
  confidence : ℚ
  metadata : List (String × MetaVal)
  deriving DecidableEq

/-- The default SIZE rule (rules.py 61-66), with the `CITY_MAX_AREA`
environment override at its documented default `48.0`. -/
def size_rule : ViolationRule :=
  { rule_type := ViolationType.size_violation, threshold := 48, severity := 4,
    description := "Billboard exceeds maximum permitted area" }

/-- The default JUNCTION_PROXIMITY rule (rules.py 67-72), with `CITY_MIN_DIST`
at its documented default `50.0`. -/
def junction_rule : ViolationRule :=
  { rule_type := ViolationType.junction_proximity, threshold := 50, severity := 3,
    description := "Billboard too close to traffic junction" }

/-- The default LICENSE_MISSING rule (rules.py 73-78). -/
def license_missing_rule : ViolationRule :=
  { rule_type := ViolationType.license_missing, threshold := 1, severity := 5,
    description := "No valid license displayed on billboard" }

/-- The default OBSCENE_CONTENT rule (rules.py 79-84). -/
def obscene_rule : ViolationRule :=
  { rule_type := ViolationType.obscene_content, threshold := 7/10, severity := 5,
    description := "Billboard contains inappropriate content" }

/-- The default LICENSE_INVALID rule (rules.py 85-90). -/
def license_invalid_rule : ViolationRule :=
  { rule_type := ViolationType.license_invalid, threshold := 1, severity := 5,
    description := "License not found in municipal registry" }

/-- The default rule list `_load_default_rules` (rules.py 58-91), in source
order. -/
def default_rules : List ViolationRule :=
  [size_rule, junction_rule, license_missing_rule, obscene_rule, license_invalid_rule]

/-- The fixed keyword list `obscene_keywords` (rules.py 53-56). -/
def obscene_keywords : List String :=
  ["explicit", "adult", "xxx", "gambling", "tobacco",
   "alcohol", "drugs", "violence", "hate"]

/-! ## Rule checks (rules.py 132-222)

The engine's `_haversine_distance` (rules.py 224-237, `math` trigonometry on
IEEE doubles) is passed in as the parameter `hav`; every theorem below
quantifies over it, so the results hold for the distance function the Python
process actually computes. -/

/-- Embedding of `_check_size_violation` (rules.py 132-145). -/
def check_size_violation (d : Detection) (rule : ViolationRule) : Option Violation :=
  let area := d.est_width_m * d.est_height_m
  let max_area := rule.threshold
  if area > max_area then
    some { rule_type := rule.rule_type, severity := rule.severity,
           reason := "Area " ++ formatFixed1 area ++ "m² exceeds limit of " ++
             pyFloatRepr max_area ++ "m²",
           confidence := min (9/10) ((area - max_area) / max_area),
           metadata := [("actual_area", MetaVal.num area), ("max_area", MetaVal.num max_area)] }
  else none

/-- A junction feature as consumed by `_check_junction_proximity`:
`geometry.coordinates` (a `[lon, lat, ...]` list, possibly malformed) and
the optional `properties.name`. -/
structure Junction where
  coords : List ℚ
  props_name : Option String
  deriving DecidableEq

/-- The violation built by `_check_junction_proximity` when a junction is
closer than the threshold. -/
def junction_violation (rule : ViolationRule) (distance : ℚ) (junction_name : String) :
    Violation :=
  { rule_type := rule.rule_type, severity := rule.severity,
    reason := "Only " ++ formatFixed0 distance ++ "m from " ++ junction_name ++
      " (min: " ++ pyFloatRepr rule.threshold ++ "m)",
    confidence := min (9/10) ((rule.threshold - distance) / rule.threshold),
    metadata := [("distance", MetaVal.num distance), ("junction_name", MetaVal.str junction_name)] }

/-- The scan inside `_check_junction_proximity` (rules.py 155-172): for each
junction in list order, extract `coordinates[0], coordinates[1]`; a junction
whose extraction raises (`KeyError`/`IndexError`/`TypeError`) is skipped; the
first junction strictly closer than the threshold wins. -/
def junction_scan (hav : ℚ → ℚ → ℚ → ℚ → ℚ) (lat lon : ℚ) (rule : ViolationRule) :
    List Junction → Option Violation
  | [] => none
  | j :: rest =>
    match j.coords with
    | j_lon :: j_lat :: _ =>
      if hav lat lon j_lat j_lon < rule.threshold then
        some (junction_violation rule (hav lat lon j_lat j_lon)
          (j.props_name.getD "Unknown Junction"))
      else junction_scan hav lat lon rule rest
    | _ => junction_scan hav lat lon rule rest

/-- Embedding of `_check_junction_proximity` (rules.py 147-173); `if not junctions_data:
return None` covers both `None` and the empty list. -/
def check_junction_proximity (hav : ℚ → ℚ → ℚ → ℚ → ℚ) (lat lon : ℚ)
    (rule : ViolationRule) (junctions_data : List Junction) : Option Violation :=
  if junctions_data.isEmpty then none
  else junction_scan hav lat lon rule junctions_data

/-- Embedding of `_check_license_missing` (rules.py 175-185): fires when
`not detection.license_id or detection.license_id.strip() == ""`. -/
def check_license_missing (d : Detection) (rule : ViolationRule) : Option Violation :=
  if pyFalsyStr d.license_id || pyStrip (d.license_id.getD "") = "" then
    some { rule_type := rule.rule_type, severity := rule.severity,
           reason := "No license number detected on billboard",
           confidence := 8/10,
           metadata := [("ocr_text", MetaVal.optStr d.ocr_text)] }
  else none

/-- Embedding of `_check_license_invalid` (rules.py 187-203): guarded only by Python
truthiness of the raw license id (so a whitespace-only id passes the guard),
then calls the registry callback on the trimmed id. -/
def check_license_invalid (d : Detection) (rule : ViolationRule)
    (registry_check_func : String → Bool) : Option Violation :=
  match d.license_id with
  | none => none
  | some s =>
    if s = "" then none
    else if registry_check_func (pyStrip s) then none
    else
      some { rule_type := rule.rule_type, severity := rule.severity,
             reason := "License " ++ s ++ " not found in registry",
             confidence := 9/10,
             metadata := [("license_id", MetaVal.optStr d.license_id)] }

/-- Embedding of `_check_obscene_content` (rules.py 205-222). -/
def check_obscene_content (d : Detection) (rule : ViolationRule) : Option Violation :=
  match d.ocr_text with
  | none => none
  | some t =>
    if t = "" then none
    else
      let found_keywords := obscene_keywords.filter fun kw => strContainsSub (pyLower t) kw
      if found_keywords.isEmpty then none
      else
        some { rule_type := rule.rule_type, severity := rule.severity,
               reason := "Inappropriate content detected: " ++
                 String.intercalate ", " found_keywords,
               confidence := min (95/100) (found_keywords.length * (3/10)),
               metadata := [("keywords", MetaVal.strList found_keywords),
                            ("full_text", MetaVal.str t)] }

/-- The per-rule dispatch of `evaluate_detection` (rules.py 110-125): an
if/elif chain on `rule.rule_type`; `LICENSE_INVALID` additionally requires a
registry callback, and `PLACEMENT_VIOLATION` has no branch at all. -/
def dispatch_rule (hav : ℚ → ℚ → ℚ → ℚ → ℚ) (d : Detection) (lat lon : ℚ)
    (junctions_data : List Junction) (registry_check_func : Option (String → Bool))
    (rule : ViolationRule) : Option Violation :=
  match rule.rule_type with
  | ViolationType.size_violation => check_size_violation d rule
  | ViolationType.junction_proximity => check_junction_proximity hav lat lon rule junctions_data
  | ViolationType.license_missing => check_license_missing d rule
  | ViolationType.license_invalid =>
    match registry_check_func with
    | some f => check_license_invalid d rule f
    | none => none
  | ViolationType.obscene_content => check_obscene_content d rule
  | ViolationType.placement_violation => none

/-- Embedding of `BillboardRulesEngine.evaluate_detection` (rules.py 93-130): every enabled
rule is dispatched in list order and each fired violation is appended. -/
def evaluate_detection (hav : ℚ → ℚ → ℚ → ℚ → ℚ) (rules : List ViolationRule)
    (d : Detection) (lat lon : ℚ) (junctions_data : List Junction)
    (registry_check_func : Option (String → Bool)) : List Violation :=
  rules.filterMap fun rule =>
    if rule.enabled then dispatch_rule hav d lat lon junctions_data registry_check_func rule
    else none

/-- Embedding of `BillboardRulesEngine.disable_rule` (rules.py 243-247): sets
`enabled = False` on every rule of the given type, in place. -/
def disable_rule (rules : List ViolationRule) (rule_type : ViolationType) :
    List ViolationRule :=
  rules.map fun rule =>
    if rule.rule_type = rule_type then { rule with enabled := false } else rule

/-- A sample distance function used to instantiate `hav` in witnesses: it
returns `0` on coincident points, as the source haversine does exactly
(see `haversine_distance_self` below), and a distance far beyond every
threshold otherwise. -/
def mockDist : ℚ → ℚ → ℚ → ℚ → ℚ := fun lat1 lon1 lat2 lon2 =>
  if lat1 = lat2 ∧ lon1 = lon2 then 0 else 5000000

/-- The oversized detection of the test suite (test_rules.py 33-40:
`est_width_m=15.0, est_height_m=5.0`), with no OCR text attached. -/
def oversized_detection : Detection :=
  { bbox := [50, 50, 400, 250], est_width_m := 15, est_height_m := 5,
    license_id := some "LIC-CHD-002", ocr_text := none, confidence := 92/100 }

/-- The single SIZE violation that `evaluate_detection` produces for
`oversized_detection` under the default rules: `75 > 48`, severity 4,
confidence `min(0.9, 27/48) = 9/16`, reason formatted with one decimal. -/
def size_violation_75 : Violation :=
  { rule_type := ViolationType.size_violation, severity := 4,
    reason := "Area 75.0m² exceeds limit of 48.0m²",
    confidence := 9/16,
    metadata := [("actual_area", MetaVal.num 75), ("max_area", MetaVal.num 48)] }

/-- The unlicensed detection of the test suite (test_rules.py 42-49), with
the license id left as a parameter. -/
def unlicensed_detection (license_id : Option String) : Detection :=
  { bbox := [150, 150, 350, 250], est_width_m := 6, est_height_m := 5/2,
    license_id := license_id, ocr_text := some "Best Deals in Town",
    confidence := 78/100 }

/-- The sample junction of the test suite (test_rules.py 52-57):
`coordinates = [76.3651, 30.3555]` in `[lon, lat]` order. -/
def junction_17 : Junction :=
  { coords := [76.3651, 30.3555], props_name := some "Sector 17 Junction" }

/-! ## Size estimator (size_estimation.py)

Embedded over `ℝ` because the camera model uses `atan`/`tan`. Python ints
(pixel dimensions) coerce into float arithmetic, so all numeric fields are
real-valued. -/

/-- Embedding of `CameraParams` dataclass (size_estimation.py 11-18). -/
structure CameraParams where
  focal_length_mm : ℝ := 26
  sensor_width_mm : ℝ := 5.76
  image_width_px : ℝ := 1920
  image_height_px : ℝ := 1080
  assumed_height_m : ℝ := 1.6

/-- Embedding of `SizeEstimate` dataclass (size_estimation.py 20-29). -/
structure SizeEstimate where
  width_m : ℝ
  height_m : ℝ
  area_m2 : ℝ
  distance_m : ℝ
  confidence : ℝ
  margin_of_error : ℝ
  method : String

/-- One row of the calibration table. -/
structure AccuracyData where
  mean_error : ℝ
  std_dev : ℝ
  samples : ℕ

/-- Embedding of `size_accuracy_table` (size_estimation.py 44-48), keyed by half-open
distance buckets. -/
def size_accuracy_table : List ((ℝ × ℝ) × AccuracyData) :=
  [ ((10, 20), { mean_error := 0.8, std_dev := 0.6, samples := 156 }),
    ((20, 50), { mean_error := 1.2, std_dev := 0.9, samples := 234 }),
    ((50, 100), { mean_error := 2.1, std_dev := 1.4, samples := 89 }) ]

/-- Embedding of `int()` truncation toward zero, used on the bbox coordinates in the depth
path. -/
noncomputable def pyTrunc (x : ℝ) : ℤ := if 0 ≤ x then ⌊x⌋ else -⌊-x⌋

/-- Embedding of `BillboardSizeEstimator._calculate_confidence` (size_estimation.py
165-190): bucket lookup, three factors, and the final clamp to
`[0.1, 0.95]`; returns `(confidence, margin_of_error)`. -/
noncomputable def calculate_confidence (distance_m width_px height_px : ℝ) : ℝ × ℝ :=
  let accuracy_data : AccuracyData :=
    ((size_accuracy_table.find? fun e =>
        decide (e.1.1 ≤ distance_m ∧ distance_m < e.1.2)).map Prod.snd).getD
      { mean_error := 3, std_dev := 2, samples := 10 }
  let distance_factor := max (3/10) (1 - (distance_m - 10) / 100)
  let size_factor := min 1 (width_px * height_px / 10000)
  let sample_factor := min 1 ((accuracy_data.samples : ℝ) / 100)
  let confidence := distance_factor * size_factor * sample_factor
  (max (1/10) (min (95/100) confidence),
   accuracy_data.mean_error + accuracy_data.std_dev)

/-- Embedding of `_estimate_distance_from_height` (size_estimation.py 150-163), clamped to
`[5, 200]`. -/
noncomputable def estimate_distance_from_height (cam : CameraParams)
    (bbox_height_px image_height assumed_height_m : ℝ) : ℝ :=
  let vertical_fov := 2 * Real.arctan
    ((cam.sensor_width_mm * image_height / cam.image_width_px) / (2 * cam.focal_length_mm))
  let angular_height := bbox_height_px / image_height * vertical_fov
  let distance_m := assumed_height_m / (2 * Real.tan (angular_height / 2))
  max 5 (min 200 distance_m)

/-- Embedding of `estimate_size_from_bbox` (size_estimation.py 50-101), with the bbox list
`[x1, y1, x2, y2]` passed unpacked (Python raises before reaching the model
on any other length). -/
noncomputable def estimate_size_from_bbox (cam : CameraParams) (x1 y1 x2 y2 : ℝ)
    (image_width image_height : ℝ) (assumed_distance_m : Option ℝ) : SizeEstimate :=
  let bbox_width_px := x2 - x1
  let bbox_height_px := y2 - y1
  let horizontal_fov := 2 * Real.arctan (cam.sensor_width_mm / (2 * cam.focal_length_mm))
  let distance_m :=
    match assumed_distance_m with
    | none => estimate_distance_from_height cam bbox_height_px image_height (35/10)
    | some dm => dm
  let pixels_per_meter := image_width / (2 * distance_m * Real.tan (horizontal_fov / 2))
  let width_m := bbox_width_px / pixels_per_meter
  let height_m := bbox_height_px / pixels_per_meter
  let cm := calculate_confidence distance_m bbox_width_px bbox_height_px
  { width_m := width_m, height_m := height_m, area_m2 := width_m * height_m,
    distance_m := distance_m, confidence := cm.1, margin_of_error := cm.2,
    method := "camera_assumptions" }

/-- Embedding of `estimate_size_with_depth` (size_estimation.py 103-148). The numpy median
over the ROI of the depth map is abstracted as the `median_depth` parameter
(the theorems below quantify over it); bbox coordinates are truncated with
`int()` as in the source. -/
noncomputable def estimate_size_with_depth (cam : CameraParams) (x1 y1 x2 y2 : ℝ)
    (median_depth : ℝ) : SizeEstimate :=
  let xi1 := (pyTrunc x1 : ℝ)
  let yi1 := (pyTrunc y1 : ℝ)
  let xi2 := (pyTrunc x2 : ℝ)
  let yi2 := (pyTrunc y2 : ℝ)
  let distance_m := median_depth
  let fx := cam.focal_length_mm * cam.image_width_px / cam.sensor_width_mm
  let bbox_width_px := xi2 - xi1
  let bbox_height_px := yi2 - yi1
  let width_m := bbox_width_px * distance_m / fx
  let height_m := bbox_height_px * distance_m / fx
  let cm := calculate_confidence distance_m bbox_width_px bbox_height_px
  { width_m := width_m, height_m := height_m, area_m2 := width_m * height_m,
    distance_m := distance_m, confidence := min (95/100) (cm.1 * (12/10)),
    margin_of_error := cm.2 * (7/10), method := "depth_estimation" }

/-! ## Geofence engine (geofence.py)

Embedded over `ℝ` with the exact haversine formula. -/

/-- Embedding of `BillboardGeofence._haversine_distance` (geofence.py 226-239);
`math.radians x = x * π / 180`. -/
noncomputable def haversine_distance (lat1 lon1 lat2 lon2 : ℝ) : ℝ :=
  let R : ℝ := 6371000
  let lat1_rad := lat1 * (Real.pi / 180)
  let lat2_rad := lat2 * (Real.pi / 180)
  let delta_lat := (lat2 - lat1) * (Real.pi / 180)
  let delta_lon := (lon2 - lon1) * (Real.pi / 180)
  let a := Real.sin (delta_lat / 2) ^ 2 +
    Real.cos lat1_rad * Real.cos lat2_rad * Real.sin (delta_lon / 2) ^ 2
  let c := 2 * Real.arcsin (Real.sqrt a)
  R * c

/-- Embedding of `GeofenceZone` dataclass (geofence.py 11-20). Of the free-form
`special_rules` dict the compliance logic only ever reads the `"reason"`
key (geofence.py 96), kept here as `special_rules_reason`. -/
structure GeofenceZone where
  zone_id : String
  name : String
  coordinates : List (ℝ × ℝ)
  max_billboards : ℤ
  size_limit_m2 : ℝ
  prohibited : Bool := false
  special_rules_reason : Option String := none

/-- First entry of `_load_restricted_zones` (geofence.py 32-40). -/
def school_zone : GeofenceZone :=
  { zone_id := "school_buffer_001",
    name := "Government Model Senior Secondary School Buffer",
    coordinates := [(30.3545, 76.3625), (30.3555, 76.3625),
                    (30.3555, 76.3635), (30.3545, 76.3635)],
    max_billboards := 0, size_limit_m2 := 0, prohibited := true,
    special_rules_reason := some "Educational institution protection" }

/-- Second entry of `_load_restricted_zones` (geofence.py 41-49). -/
def hospital_zone : GeofenceZone :=
  { zone_id := "hospital_buffer_001",
    name := "PGI Chandigarh Buffer Zone",
    coordinates := [(30.3520, 76.3580), (30.3530, 76.3580),
                    (30.3530, 76.3590), (30.3520, 76.3590)],
    max_billboards := 0, size_limit_m2 := 0, prohibited := true,
    special_rules_reason := some "Healthcare facility protection" }

/-- Third entry of `_load_restricted_zones` (geofence.py 50-58). -/
def heritage_zone : GeofenceZone :=
  { zone_id := "heritage_buffer_001",
    name := "Rock Garden Heritage Site Buffer",
    coordinates := [(30.3575, 76.3665), (30.3585, 76.3665),
                    (30.3585, 76.3675), (30.3575, 76.3675)],
    max_billboards := 2, size_limit_m2 := 20, prohibited := false,
    special_rules_reason := some "Heritage site preservation" }

/-- Fourth entry of `_load_restricted_zones` (geofence.py 59-67). -/
def commercial_zone : GeofenceZone :=
  { zone_id := "commercial_zone_001",
    name := "Sector 17 Commercial Plaza",
    coordinates := [(30.3640, 76.3720), (30.3660, 76.3720),
                    (30.3660, 76.3740), (30.3640, 76.3740)],
    max_billboards := 10, size_limit_m2 := 48, prohibited := false,
    special_rules_reason := none }

/-- Embedding of `_load_restricted_zones` (geofence.py 29-68). -/
def restricted_zones : List GeofenceZone :=
  [school_zone, hospital_zone, heritage_zone, commercial_zone]

/-- A violation dict produced by the geofence engine; the keys that appear
only on some violation types are optional fields. -/
structure GeoViolation where
  vtype : String
  severity : ℤ
  reason : String
  details : Option String := none
  zone : Option String := none
  location : Option String := none
  required_distance : Option ℤ := none
  actual_distance : Option ℝ := none

/-- The severity-5 violation recorded for a prohibited zone
(geofence.py 92-97). -/
def prohibited_zone_violation (z : GeofenceZone) : GeoViolation :=
  { vtype := "prohibited_zone", severity := 5,
    reason := "Billboard prohibited in " ++ z.name,
    details := some (z.special_rules_reason.getD "Zone restriction") }

/-- The severity-4 violation recorded when the area exceeds the zone limit
(geofence.py 100-106). -/
noncomputable def size_zone_violation (z : GeofenceZone) (billboard_area_m2 : ℝ) :
    GeoViolation :=
  { vtype := "size_exceeds_zone_limit", severity := 4,
    reason := "Area " ++ pyFloatRepr billboard_area_m2 ++ "m² exceeds zone limit of " ++
      pyFloatRepr z.size_limit_m2 ++ "m²",
    zone := some z.name }

/-- The zone loop of `check_location_compliance` (geofence.py 86-109): first
matching zone wins and the loop breaks; returns
`(compliance_status, violations, zone_info)` as accumulated by the loop.
The `Except.error` branch of the polygon test is merged into the skip case:
lemma `point_in_polygon_isOk` shows it cannot occur. -/
noncomputable def scan_zones (lat lon billboard_area_m2 : ℝ) :
    List GeofenceZone → String × List GeoViolation × Option GeofenceZone
  | [] => ("compliant", [], none)
  | z :: zs =>
    match point_in_polygon lat lon z.coordinates with
    | Except.ok true =>
      if z.prohibited then ("prohibited", [prohibited_zone_violation z], some z)
      else if billboard_area_m2 > z.size_limit_m2 then
        ("non_compliant", [size_zone_violation z billboard_area_m2], some z)
      else ("compliant", [], some z)
    | _ => scan_zones lat lon billboard_area_m2 zs

/-- A sensitive location with required buffer distance
(geofence.py 206-210). -/
structure SensitiveSite where
  name : String
  lat : ℝ
  lon : ℝ
  buffer_m : ℤ

/-- The `sensitive_locations` list (geofence.py 206-210). -/
def sensitive_locations : List SensitiveSite :=
  [ { name := "DAV Public School", lat := 30.3548, lon := 76.3628, buffer_m := 100 },
    { name := "Gurudwara Singh Sabha", lat := 30.3562, lon := 76.3645, buffer_m := 75 },
    { name := "Children's Park", lat := 30.3535, lon := 76.3605, buffer_m := 50 } ]

/-- Python `round(x, 1)` (the deviation from half-to-even is irrelevant to
every theorem below). -/
noncomputable def roundTo1 (x : ℝ) : ℝ := (round (10 * x) : ℤ) / 10

/-- Embedding of `_check_buffer_distances` (geofence.py 201-224): one severity-4 violation
per sensitive site strictly closer than its buffer. -/
noncomputable def check_buffer_distances (lat lon : ℝ) : List GeoViolation :=
  sensitive_locations.filterMap fun loc =>
    let distance := haversine_distance lat lon loc.lat loc.lon
    if distance < (loc.buffer_m : ℝ) then
      some { vtype := "buffer_violation", severity := 4,
             reason := "Only " ++ formatFixed0 distance ++ "m from " ++ loc.name ++
               " (min: " ++ toString loc.buffer_m ++ "m)",
             location := some loc.name,
             required_distance := some loc.buffer_m,
             actual_distance := some (roundTo1 distance) }
    else none

/-- Embedding of `_generate_recommendations` (geofence.py 241-262). -/
noncomputable def generate_recommendations (violations : List GeoViolation)
    (zone_info : Option GeofenceZone) : List String :=
  (if violations.any fun v => v.vtype = "prohibited_zone" then
    ["Relocate billboard outside restricted zone",
     "Consider alternative advertising methods for this area"] else []) ++
  (if violations.any fun v => v.vtype = "size_exceeds_zone_limit" then
    ["Reduce billboard size to comply with zone limit"] ++
    (match zone_info with
     | some z => ["Maximum allowed area: " ++ pyFloatRepr z.size_limit_m2 ++ "m²"]
     | none => []) else []) ++
  (if violations.any fun v => v.vtype = "buffer_violation" then
    ["Relocate billboard to maintain required buffer distances",
     "Check municipal guidelines for sensitive area buffers"] else []) ++
  (if violations.isEmpty then
    ["Location complies with current regulations",
     "Ensure proper licensing and size compliance"] else [])

/-- The `zone_info` dict of the compliance result (geofence.py 120-125); the
mixed-type JSON values are kept in printed form. -/
structure ZoneInfo where
  zone_id : Option String
  zone_name : String
  max_billboards : String
  size_limit_m2 : String

/-- The result dict of `check_location_compliance` (geofence.py 118-128). -/
structure LocationResult where
  compliance_status : String
  zone_info : ZoneInfo
  violations : List GeoViolation
  recommendations : List String

/-- Embedding of `BillboardGeofence.check_location_compliance` (geofence.py 70-128). The
zone scan sets the status, after which any buffer violation overwrites it
with `"non_compliant"` (geofence.py 115-116). -/
noncomputable def check_location_compliance (lat lon : ℝ) (billboard_area_m2 : ℝ) :
    LocationResult :=
  let scanned := scan_zones lat lon billboard_area_m2 restricted_zones
  let zone_violations := scanned.2.1
  let zinfo := scanned.2.2
  let buffer_violations := check_buffer_distances lat lon
  let all_violations := zone_violations ++ buffer_violations
  { compliance_status := if buffer_violations.isEmpty then scanned.1 else "non_compliant",
    zone_info :=
      { zone_id := zinfo.map fun z => z.zone_id,
        zone_name := (zinfo.map fun z => z.name).getD "Unzoned area",
        max_billboards := (zinfo.map fun z => toString z.max_billboards).getD "No limit",
        size_limit_m2 := (zinfo.map fun z => pyFloatRepr z.size_limit_m2).getD
          "Standard limit applies" },
    violations := all_violations,
    recommendations := generate_recommendations all_violations zinfo }

/-- One record of the mock municipal registry (geofence.py 142-147). -/
structure RegRecord where
  license_id : String
  lat : ℝ
  lon : ℝ
  status : String

/-- The `permitted_billboards` mock registry (geofence.py 142-147). -/
def permitted_billboards : List RegRecord :=
  [ { license_id := "LIC-CHD-001", lat := 30.3555, lon := 76.3651, status := "active" },
    { license_id := "LIC-CHD-002", lat := 30.3542, lon := 76.3620, status := "active" },
    { license_id := "LIC-CHD-003", lat := 30.3598, lon := 76.3712, status := "active" },
    { license_id := "LIC-CHD-004", lat := 30.3521, lon := 76.3589, status := "expired" } ]

/-- The result dict of `check_permitted_database` (geofence.py 156-179); keys
present only in the found case are optional fields. -/
structure DatabaseResult where
  database_status : String
  license_valid : Bool
  location_match : Bool
  distance_from_registered : Option ℝ := none
  registered_location : Option (ℝ × ℝ) := none
  license_status : Option String := none
  reason : String

/-- Embedding of `_get_database_reason` (geofence.py 264-273). -/
noncomputable def get_database_reason (license_valid location_match : Bool)
    (distance_m : ℝ) : String :=
  if !license_valid && !location_match then
    "License expired and location mismatch (" ++ formatFixed1 distance_m ++ "m from registered)"
  else if !license_valid then "License has expired"
  else if !location_match then
    "Location mismatch: " ++ formatFixed1 distance_m ++ "m from registered location"
  else "License valid and location matches registered coordinates"

/-- Embedding of `BillboardGeofence.check_permitted_database` (geofence.py 130-179):
exact license-id lookup, then a 50 m haversine tolerance (inclusive) and an
`status == "active"` validity test. -/
noncomputable def check_permitted_database (license_id : String) (lat lon : ℝ) :
    DatabaseResult :=
  match permitted_billboards.find? fun r => r.license_id = license_id with
  | none =>
    { database_status := "not_found", license_valid := false, location_match := false,
      reason := "License " ++ license_id ++ " not found in municipal database" }
  | some record =>
    let distance_m := haversine_distance lat lon record.lat record.lon
    let location_match : Bool := decide (distance_m ≤ 50)
    let license_valid : Bool := decide (record.status = "active")
    { database_status := "found", license_valid := license_valid,
      location_match := location_match,
      distance_from_registered := some (roundTo1 distance_m),
      registered_location := some (record.lat, record.lon),
      license_status := some record.status,
      reason := get_database_reason license_valid location_match distance_m }

/-- The combined result of `validate_billboard_location`
(geofence.py 294-299). -/
structure CombinedResult where
  location_compliance : LocationResult
  database_verification : Option DatabaseResult
  overall_status : String

/-- Embedding of `validate_billboard_location` (geofence.py 276-299). The database check
runs only when `license_id` is truthy (`if license_id:`), and the overall
status is `"compliant"` exactly when the location status is `"compliant"`
and (`not database_result or database_result["license_valid"]`). -/
noncomputable def validate_billboard_location (lat lon : ℝ) (license_id : Option String)
    (area_m2 : ℝ) : CombinedResult :=
  let location_result := check_location_compliance lat lon area_m2
  let database_result : Option DatabaseResult :=
    match license_id with
    | none => none
    | some s => if s = "" then none else some (check_permitted_database s lat lon)
  { location_compliance := location_result,
    database_verification := database_result,
    overall_status :=
      if location_result.compliance_status = "compliant" ∧
         (database_result.map fun db => db.license_valid).getD true = true then "compliant"
      else "non_compliant" }

/-! ## Lemmas about the ray-casting test -/

/-- A single ray-casting step never raises: the `xinters` read is guarded by
a condition that forces the current edge to be non-horizontal. -/
theorem pipStep_ne_error {α : Type} [LinearOrderedField α] (x y : α) (p1 p2 : α × α)
    (st : Bool × Option α) (msg : String) :
    pipStep x y p1 p2 st ≠ Except.error msg := by
  rcases p1 with ⟨p1x, p1y⟩
  rcases p2 with ⟨p2x, p2y⟩
  by_cases hg : y > min p1y p2y ∧ y ≤ max p1y p2y ∧ x ≤ max p1x p2x
  · have hne : p1y ≠ p2y := by
      rintro rfl
      rcases hg with ⟨h1, h2, -⟩
      rw [min_self] at h1
      rw [max_self] at h2
      exact absurd h2 (not_le.mpr h1)
    by_cases hx : p1x = p2x
    · simp only [pipStep]
      rw [if_pos hg, if_pos hne, if_pos hx]
      simp
    · simp only [pipStep]
      rw [if_pos hg, if_pos hne, if_neg hx]
      simp
  · simp only [pipStep]
    rw [if_neg hg]
    simp

/-- The ray-casting loop always returns a state. -/
theorem pipGo_isOk {α : Type} [LinearOrderedField α] (x y : α)
    (edges : List ((α × α) × (α × α))) (st : Bool × Option α) :
    ∃ st1, pipGo x y edges st = Except.ok st1 := by
  induction edges generalizing st with
  | nil => exact ⟨st, rfl⟩
  | cons e es ih =>
    rcases h : pipStep x y e.1 e.2 st with msg | st1
    · exact absurd h (pipStep_ne_error x y e.1 e.2 st msg)
    · rcases ih st1 with ⟨st2, h2⟩
      exact ⟨st2, by rw [pipGo, h]; exact h2⟩

/-- Embedding of `_point_in_polygon` returns a boolean on every non-empty polygon: the
only reachable exception is the `IndexError` on an empty vertex list. -/
theorem point_in_polygon_isOk {α : Type} [LinearOrderedField α] (lat lon : α)
    (p0 : α × α) (rest : List (α × α)) :
    ∃ b, point_in_polygon lat lon (p0 :: rest) = Except.ok b := by
  rcases pipGo_isOk lon lat (List.zip (p0 :: rest) (rest ++ [p0])) (false, none) with ⟨st, h⟩
  exact ⟨st.1, by rw [point_in_polygon, h]; rfl⟩

/-- Ray-casting characterization on the axis-aligned rectangles used by the
zone data: the vertex list `[(a,c),(b,c),(b,d),(a,d)]` read as `(x,y)` pairs
tests positive exactly on a half-open box. Note the polygon entries are the
stored `(lat, lon)` tuples while the test point enters as `x = lon, y = lat`,
so for the configured zones this box lives in swapped coordinates. -/
theorem pip_rect {α : Type} [LinearOrderedField α] (a b c d lat lon : α)
    (hab : a < b) (hcd : c < d) :
    point_in_polygon lat lon [(a, c), (b, c), (b, d), (a, d)] = Except.ok true ↔
      c < lat ∧ lat ≤ d ∧ a < lon ∧ lon ≤ b := by
  have step1 : pipStep lon lat (a, c) (b, c) ((false : Bool), (none : Option α)) =
      Except.ok (false, none) := by
    simp only [pipStep]
    rw [if_neg]
    rintro ⟨h1, h2, -⟩
    rw [min_self] at h1
    rw [max_self] at h2
    exact absurd h2 (not_le.mpr h1)
  have step2_in : ∀ st : Bool × Option α, c < lat → lat ≤ d → lon ≤ b →
      pipStep lon lat (b, c) (b, d) st =
        Except.ok (!st.1, some ((lat - c) * (b - b) / (d - c) + b)) := by
    intro st h1 h2 h3
    have hguard : lat > min c d ∧ lat ≤ max c d ∧ lon ≤ max b b :=
      ⟨by rw [min_eq_left hcd.le]; exact h1, by rw [max_eq_right hcd.le]; exact h2,
       by rw [max_self]; exact h3⟩
    simp only [pipStep]
    rw [if_pos hguard, if_pos hcd.ne]
    simp
  have step2_out : ∀ st : Bool × Option α, ¬(c < lat ∧ lat ≤ d ∧ lon ≤ b) →
      pipStep lon lat (b, c) (b, d) st = Except.ok st := by
    intro st h
    simp only [pipStep]
    rw [if_neg]
    rintro ⟨h1, h2, h3⟩
    rw [min_eq_left hcd.le] at h1
    rw [max_eq_right hcd.le] at h2
    rw [max_self] at h3
    exact h ⟨h1, h2, h3⟩
  have step3 : ∀ st : Bool × Option α, pipStep lon lat (b, d) (a, d) st = Except.ok st := by
    intro st
    simp only [pipStep]
    rw [if_neg]
    rintro ⟨h1, h2, -⟩
    rw [min_self] at h1
    rw [max_self] at h2
    exact absurd h2 (not_le.mpr h1)
  have step4_in : ∀ st : Bool × Option α, c < lat → lat ≤ d → lon ≤ a →
      pipStep lon lat (a, d) (a, c) st =
        Except.ok (!st.1, some ((lat - d) * (a - a) / (c - d) + a)) := by
    intro st h1 h2 h3
    have hguard : lat > min d c ∧ lat ≤ max d c ∧ lon ≤ max a a :=
      ⟨by rw [min_eq_right hcd.le]; exact h1, by rw [max_eq_left hcd.le]; exact h2,
       by rw [max_self]; exact h3⟩
    simp only [pipStep]
    rw [if_pos hguard, if_pos (Ne.symm hcd.ne)]
    simp
  have step4_out : ∀ st : Bool × Option α, ¬(c < lat ∧ lat ≤ d ∧ lon ≤ a) →
      pipStep lon lat (a, d) (a, c) st = Except.ok st := by
    intro st h
    simp only [pipStep]
    rw [if_neg]
    rintro ⟨h1, h2, h3⟩
    rw [min_eq_right hcd.le] at h1
    rw [max_eq_left hcd.le] at h2
    rw [max_self] at h3
    exact h ⟨h1, h2, h3⟩
  have hunfold : point_in_polygon lat lon [(a, c), (b, c), (b, d), (a, d)] =
      (pipGo lon lat [((a, c), (b, c)), ((b, c), (b, d)), ((b, d), (a, d)),
        ((a, d), (a, c))] (false, none)).map Prod.fst := rfl
  by_cases hG2 : c < lat ∧ lat ≤ d ∧ lon ≤ b
  · by_cases hG4 : c < lat ∧ lat ≤ d ∧ lon ≤ a
    · rw [hunfold]
      simp only [pipGo, step1, step2_in _ hG2.1 hG2.2.1 hG2.2.2, step3,
        step4_in _ hG4.1 hG4.2.1 hG4.2.2]
      simp only [Except.map, Bool.not_false, Bool.not_true]
      constructor
      · intro h
        exact absurd h (by simp)
      · rintro ⟨-, -, h4, -⟩
        exact absurd hG4.2.2 (not_le.mpr h4)
    · rw [hunfold]
      simp only [pipGo, step1, step2_in _ hG2.1 hG2.2.1 hG2.2.2, step3, step4_out _ hG4]
      simp only [Except.map, Bool.not_false]
      have ha : a < lon := by
        by_contra hle
        exact hG4 ⟨hG2.1, hG2.2.1, le_of_not_lt hle⟩
      simp [hG2.1, hG2.2.1, hG2.2.2, ha]
  · by_cases hG4 : c < lat ∧ lat ≤ d ∧ lon ≤ a
    · exact absurd ⟨hG4.1, hG4.2.1, hG4.2.2.trans hab.le⟩ hG2
    · rw [hunfold]
      simp only [pipGo, step1, step2_out _ hG2, step3, step4_out _ hG4]
      simp only [Except.map]
      constructor
      · intro h
        exact absurd h (by simp)
      · rintro ⟨h1, h2, -, h3⟩
        exact absurd ⟨h1, h2, h3⟩ hG2

/-! ## Lemmas about the haversine distance -/

/-- The source haversine returns exactly zero on coincident points (the
Python counterpart computes `0.0` exactly: `sin 0.0 = 0.0`, `sqrt 0.0 = 0.0`,
`asin 0.0 = 0.0` in IEEE arithmetic). -/
theorem haversine_distance_self (lat lon : ℝ) : haversine_distance lat lon lat lon = 0 := by
  simp [haversine_distance, Real.sqrt_zero, Real.arcsin_zero]

/-- A crude but sufficient lower bound: two points whose latitudes differ by
40 to 50 degrees (both within (-90, 90)) are at least 1 km apart. Used to show
that the sensitive-site buffer checks cannot fire at any point that the
ray-casting test places inside a configured zone. -/
theorem haversine_distance_ge (lat1 lon1 lat2 lon2 : ℝ)
    (h1a : -90 ≤ lat1) (h1b : lat1 ≤ 90) (h2a : -90 ≤ lat2) (h2b : lat2 ≤ 90)
    (hgap1 : 40 ≤ lat1 - lat2) (hgap2 : lat1 - lat2 ≤ 50) :
    1000 ≤ haversine_distance lat1 lon1 lat2 lon2 := by
  have hpi1 : (3.14 : ℝ) < Real.pi := Real.pi_gt_d2
  have hpi2 : Real.pi < 3.15 := Real.pi_lt_d2
  simp only [haversine_distance]
  set t : ℝ := (lat1 - lat2) * (Real.pi / 180) / 2 with ht
  have hneg : (lat2 - lat1) * (Real.pi / 180) / 2 = -t := by rw [ht]; ring
  rw [hneg, Real.sin_neg, neg_sq]
  have ht1 : (0.34 : ℝ) ≤ t := by rw [ht]; nlinarith
  have ht2 : t ≤ 0.44 := by rw [ht]; nlinarith
  have hcube : t ^ 3 ≤ (0.44 : ℝ) ^ 3 := pow_le_pow_left₀ (by linarith) ht2 3
  have hsin : (0.31 : ℝ) ≤ Real.sin t := by
    have hsub := Real.sin_gt_sub_cube (by linarith : (0:ℝ) < t) (by linarith : t ≤ 1)
    nlinarith
  have hcos1 : 0 ≤ Real.cos (lat1 * (Real.pi / 180)) := by
    apply Real.cos_nonneg_of_mem_Icc
    constructor
    · nlinarith
    · nlinarith
  have hcos2 : 0 ≤ Real.cos (lat2 * (Real.pi / 180)) := by
    apply Real.cos_nonneg_of_mem_Icc
    constructor
    · nlinarith
    · nlinarith
  set a : ℝ := Real.sin t ^ 2 +
    Real.cos (lat1 * (Real.pi / 180)) * Real.cos (lat2 * (Real.pi / 180)) *
      Real.sin ((lon2 - lon1) * (Real.pi / 180) / 2) ^ 2 with ha
  have hage : Real.sin t ^ 2 ≤ a := by
    rw [ha]
    nlinarith [sq_nonneg (Real.sin ((lon2 - lon1) * (Real.pi / 180) / 2)),
      mul_nonneg hcos1 hcos2]
  have hsqrt : (0.31 : ℝ) ≤ Real.sqrt a := by
    have h1 := Real.sqrt_le_sqrt hage
    rw [Real.sqrt_sq_eq_abs] at h1
    calc (0.31 : ℝ) ≤ Real.sin t := hsin
    _ ≤ |Real.sin t| := le_abs_self _
    _ ≤ Real.sqrt a := h1
  have harcsin : (0.31 : ℝ) ≤ Real.arcsin (Real.sqrt a) := by
    by_cases hs1 : Real.sqrt a ≤ 1
    · have hsin_eq : Real.sin (Real.arcsin (Real.sqrt a)) = Real.sqrt a :=
        Real.sin_arcsin (by linarith) hs1
      have hpos : 0 < Real.arcsin (Real.sqrt a) :=
        Real.arcsin_pos.mpr (by linarith)
      have hlt := Real.sin_lt hpos
      rw [hsin_eq] at hlt
      linarith
    · rw [Real.arcsin_of_one_le (by linarith)]
      linarith
  nlinarith

/-! ## Prohibited-zone behaviour of `check_location_compliance` -/

/-- Any point that the code's polygon test places inside one of the two
prohibited zones has latitude in `(76.3580, 76.3635]` (the polygon tuples and
the test point are read in swapped coordinate order, see `pip_rect`), and the
zone scan at such a point reports `prohibited` with exactly the severity-5
zone violation. -/
theorem prohibited_zone_cases (lat lon : ℝ)
    (h : ∃ z ∈ restricted_zones, z.prohibited = true ∧
      point_in_polygon lat lon z.coordinates = Except.ok true) :
    (76.3580 < lat ∧ lat ≤ 76.3635) ∧
      ∀ area : ℝ, ∃ z : GeofenceZone, z.prohibited = true ∧
        scan_zones lat lon area restricted_zones =
          ("prohibited", [prohibited_zone_violation z], some z) := by
  obtain ⟨z, hz, hp, hpip⟩ := h
  simp only [restricted_zones, List.mem_cons, List.not_mem_nil, or_false] at hz
  rcases hz with hz | hz | hz | hz
  · -- school zone
    subst hz
    rw [show school_zone.coordinates = [((30.3545 : ℝ), (76.3625 : ℝ)), (30.3555, 76.3625),
      (30.3555, 76.3635), (30.3545, 76.3635)] from rfl] at hpip
    have hb := (pip_rect (30.3545 : ℝ) 30.3555 76.3625 76.3635 lat lon
      (by norm_num) (by norm_num)).mp hpip
    refine ⟨⟨by linarith [hb.1], hb.2.1⟩, fun area => ⟨school_zone, rfl, ?_⟩⟩
    simp only [restricted_zones, scan_zones, school_zone, hpip]
    rfl
  · -- hospital zone
    subst hz
    rw [show hospital_zone.coordinates = [((30.3520 : ℝ), (76.3580 : ℝ)), (30.3530, 76.3580),
      (30.3530, 76.3590), (30.3520, 76.3590)] from rfl] at hpip
    have hb := (pip_rect (30.3520 : ℝ) 30.3530 76.3580 76.3590 lat lon
      (by norm_num) (by norm_num)).mp hpip
    obtain ⟨bs, hbs⟩ := point_in_polygon_isOk lat lon ((30.3545 : ℝ), (76.3625 : ℝ))
      [(30.3555, 76.3625), (30.3555, 76.3635), (30.3545, 76.3635)]
    have hbsf : bs = false := by
      cases bs with
      | false => rfl
      | true =>
        have := (pip_rect (30.3545 : ℝ) 30.3555 76.3625 76.3635 lat lon
          (by norm_num) (by norm_num)).mp hbs
        linarith [hb.2.1, this.1]
    subst hbsf
    refine ⟨⟨hb.1, by linarith [hb.2.1]⟩, fun area => ⟨hospital_zone, rfl, ?_⟩⟩
    simp only [restricted_zones, scan_zones, school_zone, hospital_zone, hbs, hpip]
    rfl
  · -- heritage zone is not prohibited
    subst hz
    simp [heritage_zone] at hp
  · -- commercial zone is not prohibited
    subst hz
    simp [commercial_zone] at hp

/-- No sensitive-site buffer violation can fire at latitudes in
`(76.3580, 76.3635]`: every registered site sits at latitude `≈ 30.35`,
more than 46 degrees away. -/
theorem buffer_empty_of_far (lat lon : ℝ) (hlat1 : 76.3580 < lat)
    (hlat2 : lat ≤ 76.3635) : check_buffer_distances lat lon = [] := by
  have h1 : ¬(haversine_distance lat lon 30.3548 76.3628 < (100 : ℝ)) := by
    have := haversine_distance_ge lat lon 30.3548 76.3628 (by linarith) (by linarith)
      (by norm_num) (by norm_num) (by linarith) (by linarith)
    linarith
  have h2 : ¬(haversine_distance lat lon 30.3562 76.3645 < (75 : ℝ)) := by
    have := haversine_distance_ge lat lon 30.3562 76.3645 (by linarith) (by linarith)
      (by norm_num) (by norm_num) (by linarith) (by linarith)
    linarith
  have h3 : ¬(haversine_distance lat lon 30.3535 76.3605 < (50 : ℝ)) := by
    have := haversine_distance_ge lat lon 30.3535 76.3605 (by linarith) (by linarith)
      (by norm_num) (by norm_num) (by linarith) (by linarith)
    linarith
  simp [check_buffer_distances, sensitive_locations, h1, h2, h3]

/-- Shared characterization used by the prohibited-zone claims: at any point
the code places inside a prohibited zone, `check_location_compliance` reports
status `"prohibited"` and exactly one violation, of type `prohibited_zone`
with severity 5, for every area argument. -/
theorem check_location_compliance_prohibited (lat lon area : ℝ)
    (h : ∃ z ∈ restricted_zones, z.prohibited = true ∧
      point_in_polygon lat lon z.coordinates = Except.ok true) :
    (check_location_compliance lat lon area).compliance_status = "prohibited" ∧
    (check_location_compliance lat lon area).violations.length = 1 ∧
    ∀ v ∈ (check_location_compliance lat lon area).violations,
      v.vtype = "prohibited_zone" ∧ v.severity = 5 := by
  obtain ⟨⟨hl1, hl2⟩, hscan⟩ := prohibited_zone_cases lat lon h
  obtain ⟨z, -, hzscan⟩ := hscan area
  have hbuf : check_buffer_distances lat lon = [] := buffer_empty_of_far lat lon hl1 hl2
  simp only [check_location_compliance, hzscan, hbuf]
  refine ⟨rfl, rfl, ?_⟩
  intro v hv
  simp only [List.append_nil, List.mem_singleton] at hv
  subst hv
  exact ⟨rfl, rfl⟩

/-! ## Rules engine lemmas -/

/-- Every violation built by the size check carries the rule's type tag. -/
theorem check_size_violation_rt {d : Detection} {rule : ViolationRule} {v : Violation}
    (h : check_size_violation d rule = some v) : v.rule_type = rule.rule_type := by
  simp only [check_size_violation] at h
  split at h
  · cases h
    rfl
  · cases h

/-- Every violation built by the junction scan carries the rule's type tag. -/
theorem junction_scan_rt (hav : ℚ → ℚ → ℚ → ℚ → ℚ) (lat lon : ℚ)
    (rule : ViolationRule) :
    ∀ (js : List Junction) (v : Violation),
      junction_scan hav lat lon rule js = some v → v.rule_type = rule.rule_type := by
  intro js
  induction js with
  | nil =>
    intro v h
    simp [junction_scan] at h
  | cons j rest ih =>
    intro v h
    obtain ⟨coords, pname⟩ := j
    rcases coords with _ | ⟨a, tl⟩
    · simp only [junction_scan] at h
      exact ih v h
    · rcases tl with _ | ⟨b, t⟩
      · simp only [junction_scan] at h
        exact ih v h
      · simp only [junction_scan] at h
        split at h
        · cases h
          rfl
        · exact ih v h

/-- Every violation built by the junction-proximity check carries the rule's
type tag. -/
theorem check_junction_proximity_rt {hav : ℚ → ℚ → ℚ → ℚ → ℚ} {lat lon : ℚ}
    {rule : ViolationRule} {js : List Junction} {v : Violation}
    (h : check_junction_proximity hav lat lon rule js = some v) :
    v.rule_type = rule.rule_type := by
  simp only [check_junction_proximity] at h
  split at h
  · cases h
  · exact junction_scan_rt hav lat lon rule js v h

/-- Every violation built by the license-missing check carries the rule's
type tag. -/
theorem check_license_missing_rt {d : Detection} {rule : ViolationRule} {v : Violation}
    (h : check_license_missing d rule = some v) : v.rule_type = rule.rule_type := by
  simp only [check_license_missing] at h
  split at h
  · cases h
    rfl
  · cases h

/-- Every violation built by the license-invalid check carries the rule's
type tag. -/
theorem check_license_invalid_rt {d : Detection} {rule : ViolationRule}
    {f : String → Bool} {v : Violation}
    (h : check_license_invalid d rule f = some v) : v.rule_type = rule.rule_type := by
  simp only [check_license_invalid] at h
  split at h
  · cases h
  · split at h
    · cases h
    · split at h
      · cases h
      · cases h
        rfl

/-- Every violation built by the obscene-content check carries the rule's
type tag. -/
theorem check_obscene_content_rt {d : Detection} {rule : ViolationRule} {v : Violation}
    (h : check_obscene_content d rule = some v) : v.rule_type = rule.rule_type := by
  simp only [check_obscene_content] at h
  split at h
  · cases h
  · split at h
    · cases h
    · split at h
      · cases h
      · cases h
        rfl

/-- Every violation produced by the dispatch of `evaluate_detection` carries
the type tag of the rule that produced it. -/
theorem dispatch_rule_rt {hav : ℚ → ℚ → ℚ → ℚ → ℚ} {d : Detection} {lat lon : ℚ}
    {js : List Junction} {reg : Option (String → Bool)} {rule : ViolationRule}
    {v : Violation} (h : dispatch_rule hav d lat lon js reg rule = some v) :
    v.rule_type = rule.rule_type := by
  unfold dispatch_rule at h
  rcases hr : rule.rule_type with _ | _ | _ | _ | _ | _ <;> rw [hr] at h
  · exact (check_size_violation_rt h).trans hr
  · cases h
  · exact (check_license_missing_rt h).trans hr
  · rcases reg with _ | f
    · cases h
    · exact (check_license_invalid_rt h).trans hr
  · exact (check_obscene_content_rt h).trans hr
  · exact (check_junction_proximity_rt h).trans hr

/-- Membership in an evaluation result, given an enabled rule whose dispatch
fires. -/
theorem mem_evaluate_of_dispatch (hav : ℚ → ℚ → ℚ → ℚ → ℚ)
    (rules : List ViolationRule) (d : Detection) (lat lon : ℚ)
    (js : List Junction) (reg : Option (String → Bool)) {rule : ViolationRule}
    {v : Violation} (hr : rule ∈ rules) (he : rule.enabled = true)
    (hd : dispatch_rule hav d lat lon js reg rule = some v) :
    v ∈ evaluate_detection hav rules d lat lon js reg := by
  simp only [evaluate_detection, List.mem_filterMap]
  refine ⟨rule, hr, ?_⟩
  rw [he]
  simpa using hd

/-- Disabling a rule type turns the evaluation result into the filtered
original result: the disabled type's violations vanish and everything else
is untouched. -/
theorem evaluate_disable_eq (hav : ℚ → ℚ → ℚ → ℚ → ℚ) (rules : List ViolationRule)
    (rt : ViolationType) (d : Detection) (lat lon : ℚ) (js : List Junction)
    (reg : Option (String → Bool)) :
    evaluate_detection hav (disable_rule rules rt) d lat lon js reg =
      (evaluate_detection hav rules d lat lon js reg).filter
        fun v => decide (v.rule_type ≠ rt) := by
  induction rules with
  | nil => rfl
  | cons r rs ih =>
    simp only [disable_rule, List.map_cons] at ih ⊢
    simp only [evaluate_detection, List.filterMap_cons] at ih ⊢
    by_cases hr : r.rule_type = rt
    · rw [if_pos hr]
      cases hre : r.enabled
      · simp only [hre, Bool.false_eq_true, if_neg, ite_false]
        simpa using ih
      · rcases hd : dispatch_rule hav d lat lon js reg r with _ | v
        · simp only [hre, hd, ite_true]
          simpa using ih
        · have hvt : v.rule_type = rt := (dispatch_rule_rt hd).trans hr
          simp only [hre, hd, ite_true, List.filter_cons, hvt]
          simpa using ih
    · rw [if_neg hr]
      cases hre : r.enabled
      · simp only [hre, Bool.false_eq_true, ite_false]
        simpa using ih
      · rcases hd : dispatch_rule hav d lat lon js reg r with _ | v
        · simp only [hre, hd, ite_true]
          simpa using ih
        · have hvt : v.rule_type ≠ rt := by
            rw [dispatch_rule_rt hd]
            exact hr
          simp only [hre, hd, ite_true, List.filter_cons, hvt]
          simpa [hvt] using ih

/-- C9: after `disable_rule(R)`, `evaluate_detection` produces no violations
of type `R`, and the violations of every other rule type are exactly those of
the evaluation before the disable (the result is the original result with the
type-`R` violations filtered out). -/
theorem disable_rule_frame (hav : ℚ → ℚ → ℚ → ℚ → ℚ) (rules : List ViolationRule)
    (rt : ViolationType) (d : Detection) (lat lon : ℚ) (js : List Junction)
    (reg : Option (String → Bool)) :
    (evaluate_detection hav (disable_rule rules rt) d lat lon js reg =
      (evaluate_detection hav rules d lat lon js reg).filter
        fun v => decide (v.rule_type ≠ rt)) ∧
    ∀ v ∈ evaluate_detection hav (disable_rule rules rt) d lat lon js reg,
      v.rule_type ≠ rt := by
  refine ⟨evaluate_disable_eq hav rules rt d lat lon js reg, ?_⟩
  intro v hv
  rw [evaluate_disable_eq hav rules rt d lat lon js reg] at hv
  have := List.of_mem_filter hv
  exact of_decide_eq_true this

/-- Bounds of `_calculate_confidence`: the returned confidence is clamped to
`[0.1, 0.95]`. -/
theorem calculate_confidence_bounds (distance_m width_px height_px : ℝ) :
    1/10 ≤ (calculate_confidence distance_m width_px height_px).1 ∧
    (calculate_confidence distance_m width_px height_px).1 ≤ 95/100 := by
  unfold calculate_confidence
  exact ⟨le_max_left _ _, max_le (by norm_num) (min_le_left _ _)⟩

/-- C8: the confidence of every `SizeEstimate`, from either estimation
method, lies in `[0.1, 0.95]`: the bounding-box path clamps the factor
product, and the depth path's 1.2 boost is capped at 0.95 and cannot fall
below 0.1. -/
theorem size_estimate_confidence_in_range :
    (∀ (cam : CameraParams) (x1 y1 x2 y2 image_width image_height : ℝ)
      (assumed_distance_m : Option ℝ),
      1/10 ≤ (estimate_size_from_bbox cam x1 y1 x2 y2 image_width image_height
        assumed_distance_m).confidence ∧
      (estimate_size_from_bbox cam x1 y1 x2 y2 image_width image_height
        assumed_distance_m).confidence ≤ 95/100) ∧
    (∀ (cam : CameraParams) (x1 y1 x2 y2 median_depth : ℝ),
      1/10 ≤ (estimate_size_with_depth cam x1 y1 x2 y2 median_depth).confidence ∧
      (estimate_size_with_depth cam x1 y1 x2 y2 median_depth).confidence ≤ 95/100) := by
  constructor
  · intro cam x1 y1 x2 y2 iw ih adm
    exact calculate_confidence_bounds _ _ _
  · intro cam x1 y1 x2 y2 md
    have h := calculate_confidence_bounds md
      ((pyTrunc x2 : ℝ) - (pyTrunc x1 : ℝ)) ((pyTrunc y2 : ℝ) - (pyTrunc y1 : ℝ))
    constructor
    · refine le_min (by norm_num) ?_
      nlinarith [h.1]
    · exact min_le_left _ _

/-- C3: a SIZE violation fires iff `est_width_m * est_height_m` strictly
exceeds the rule threshold (equality does not fire); a fired violation
carries the rule's severity, confidence `min(0.9, (area-T)/T)` and metadata
with the actual and maximum area; and for width 15, height 5 under the
default rules the evaluation yields exactly the single severity-4 SIZE
violation whose reason contains `75.0m²`. -/
theorem size_rule_strict (d : Detection) (rule : ViolationRule) :
    ((check_size_violation d rule).isSome = true ↔
      d.est_width_m * d.est_height_m > rule.threshold) ∧
    (∀ v, check_size_violation d rule = some v →
      v.rule_type = rule.rule_type ∧ v.severity = rule.severity ∧
      v.confidence = min (9/10)
        ((d.est_width_m * d.est_height_m - rule.threshold) / rule.threshold) ∧
      v.metadata = [("actual_area", MetaVal.num (d.est_width_m * d.est_height_m)),
        ("max_area", MetaVal.num rule.threshold)]) ∧
    (∀ hav : ℚ → ℚ → ℚ → ℚ → ℚ,
      evaluate_detection hav default_rules oversized_detection 30.3555 76.3651 [] none =
        [size_violation_75] ∧
      ∃ s1 s2, size_violation_75.reason = s1 ++ "75.0m²" ++ s2) := by
  refine ⟨?_, ?_, ?_⟩
  · by_cases hc : d.est_width_m * d.est_height_m > rule.threshold <;>
      simp [check_size_violation, hc]
  · intro v h
    simp only [check_size_violation] at h
    split at h
    · cases h
      exact ⟨rfl, rfl, rfl, rfl⟩
    · cases h
  · intro hav
    have hsize : check_size_violation oversized_detection size_rule =
        some size_violation_75 := by
      have hf : formatFixed1 (75 : ℚ) = "75.0" := by
        have hr : round ((10 : ℚ) * 75) = 750 := by norm_num [round_eq]
        simp only [formatFixed1, hr]
        decide
      have hp : pyFloatRepr (48 : ℚ) = "48.0" := by
        have h0 : Int.fract (48 : ℚ) = 0 := by norm_num [Int.fract]
        have hr : round (48 : ℚ) = 48 := by norm_num [round_eq]
        rw [pyFloatRepr, if_pos h0, hr]
        decide
      simp only [check_size_violation, oversized_detection, size_rule]
      rw [if_pos (by norm_num : (15 : ℚ) * 5 > 48)]
      rw [show (15 : ℚ) * 5 = 75 by norm_num]
      rw [hf, hp]
      rw [show ((75 : ℚ) - 48) / 48 = 9/16 by norm_num]
      rw [min_eq_right (by norm_num : (9 : ℚ)/16 ≤ 9/10)]
      rfl
    have hlm : check_license_missing oversized_detection license_missing_rule = none := by
      simp only [check_license_missing, oversized_detection]
      rw [if_neg (by decide)]
    have d1 : dispatch_rule hav oversized_detection 30.3555 76.3651 [] none size_rule =
        some size_violation_75 := hsize
    have d2 : dispatch_rule hav oversized_detection (30.3555 : ℚ) 76.3651 [] none
        junction_rule = none := rfl
    have d3 : dispatch_rule hav oversized_detection (30.3555 : ℚ) 76.3651 [] none
        license_missing_rule = none := hlm
    have d4 : dispatch_rule hav oversized_detection (30.3555 : ℚ) 76.3651 [] none
        obscene_rule = none := rfl
    have d5 : dispatch_rule hav oversized_detection (30.3555 : ℚ) 76.3651 [] none
        license_invalid_rule = none := rfl
    refine ⟨?_, "Area ", " exceeds limit of 48.0m²", by decide⟩
    simp only [evaluate_detection, default_rules, List.filterMap_cons, List.filterMap_nil,
      show size_rule.enabled = true from rfl,
      show junction_rule.enabled = true from rfl,
      show license_missing_rule.enabled = true from rfl,
      show obscene_rule.enabled = true from rfl,
      show license_invalid_rule.enabled = true from rfl,
      if_true, d1, d2, d3, d4, d5]

/-- Witness for `size_rule_strict`: the 15 × 5 detection fires the default
SIZE rule with severity 4. -/
theorem size_rule_strict_witness :
    ∃ v, check_size_violation oversized_detection size_rule = some v ∧ v.severity = 4 := by
  obtain ⟨v, hv⟩ := Option.isSome_iff_exists.mp
    ((size_rule_strict oversized_detection size_rule).1.mpr
      (by norm_num [oversized_detection, size_rule]))
  have h2 := (size_rule_strict oversized_detection size_rule).2.1 v hv
  exact ⟨v, hv, by rw [h2.2.1]; rfl⟩

/-- C6: a LICENSE_MISSING violation fires iff the license id is absent or
blank after trimming, with fixed confidence 0.8 and the rule's severity; it
fires for `None`, `""` and `"   "` and not for `"X"`. -/
theorem license_missing_blank (d : Detection) (rule : ViolationRule) :
    ((check_license_missing d rule).isSome = true ↔
      (d.license_id = none ∨ ∃ s, d.license_id = some s ∧ pyStrip s = "")) ∧
    (∀ v, check_license_missing d rule = some v →
      v.rule_type = rule.rule_type ∧ v.severity = rule.severity ∧
      v.confidence = 8/10) ∧
    ((check_license_missing (unlicensed_detection none) license_missing_rule).isSome
        = true ∧
      (check_license_missing (unlicensed_detection (some "")) license_missing_rule).isSome
        = true ∧
      (check_license_missing (unlicensed_detection (some "   ")) license_missing_rule).isSome
        = true ∧
      check_license_missing (unlicensed_detection (some "X")) license_missing_rule
        = none) := by
  refine ⟨?_, ?_, by decide, by decide, by decide, by decide⟩
  · rcases hd : d.license_id with _ | s
    · simp [check_license_missing, hd, pyFalsyStr]
    · by_cases hps : pyStrip s = ""
      · simp [check_license_missing, hd, pyFalsyStr, hps]
      · have hs : ¬(s = "") := fun h => hps (by rw [h]; rfl)
        simp [check_license_missing, hd, pyFalsyStr, hps, hs]
  · intro v h
    simp only [check_license_missing] at h
    split at h
    · cases h
      exact ⟨rfl, rfl, rfl⟩
    · cases h

/-- Witness for `license_missing_blank`: the whitespace-only license id
`"   "` fires the check. -/
theorem license_missing_blank_witness :
    (check_license_missing (unlicensed_detection (some "   "))
      license_missing_rule).isSome = true :=
  (license_missing_blank (unlicensed_detection (some "   ")) license_missing_rule).1.mpr
    (Or.inr ⟨"   ", rfl, by decide⟩)

/-- The junction scan is the first-match search over the junction list. -/
theorem junction_scan_eq_find (hav : ℚ → ℚ → ℚ → ℚ → ℚ) (lat lon : ℚ)
    (rule : ViolationRule) :
    ∀ js : List Junction, (∀ j ∈ js, 2 ≤ j.coords.length) →
      junction_scan hav lat lon rule js =
        (js.find? fun j =>
          decide (hav lat lon (j.coords.getD 1 0) (j.coords.getD 0 0) <
            rule.threshold)).map
          fun j => junction_violation rule
            (hav lat lon (j.coords.getD 1 0) (j.coords.getD 0 0))
            (j.props_name.getD "Unknown Junction") := by
  intro js
  induction js with
  | nil => intro _; rfl
  | cons j rest ih =>
    intro hwf
    have hj := hwf j (List.mem_cons_self j rest)
    obtain ⟨coords, pname⟩ := j
    rcases coords with _ | ⟨a, tl⟩
    · simp at hj
    · rcases tl with _ | ⟨b, t⟩
      · simp at hj
      · simp only [junction_scan, List.find?, List.getD, List.getElem?_cons_zero,
          List.getElem?_cons_succ, Option.getD_some]
        by_cases hlt : hav lat lon b a < rule.threshold
        · rw [if_pos hlt]
          simp [hlt, List.getD]
        · rw [if_neg hlt]
          have := ih fun x hx => hwf x (List.mem_cons_of_mem _ hx)
          simp [hlt, this, List.getD]

/-- C7: with an enabled JUNCTION_PROXIMITY rule of threshold `T`, the check
returns the violation for the *first* junction in list order whose distance
is strictly below `T` (first-match, not nearest-match), with confidence
`min(0.9, (T-d)/T)`; a junction at distance exactly `T` produces no
violation. -/
theorem junction_first_match (hav : ℚ → ℚ → ℚ → ℚ → ℚ) (lat lon : ℚ)
    (rule : ViolationRule) (js : List Junction)
    (hwf : ∀ j ∈ js, 2 ≤ j.coords.length) :
    (check_junction_proximity hav lat lon rule js =
      (js.find? fun j =>
        decide (hav lat lon (j.coords.getD 1 0) (j.coords.getD 0 0) <
          rule.threshold)).map
        fun j =>
          { rule_type := rule.rule_type, severity := rule.severity,
            reason := "Only " ++
              formatFixed0 (hav lat lon (j.coords.getD 1 0) (j.coords.getD 0 0)) ++
              "m from " ++ j.props_name.getD "Unknown Junction" ++ " (min: " ++
              pyFloatRepr rule.threshold ++ "m)",
            confidence := min (9/10)
              ((rule.threshold - hav lat lon (j.coords.getD 1 0) (j.coords.getD 0 0)) /
                rule.threshold),
            metadata := [("distance",
              MetaVal.num (hav lat lon (j.coords.getD 1 0) (j.coords.getD 0 0))),
              ("junction_name",
                MetaVal.str (j.props_name.getD "Unknown Junction"))] }) ∧
    (∀ j : Junction, 2 ≤ j.coords.length →
      hav lat lon (j.coords.getD 1 0) (j.coords.getD 0 0) = rule.threshold →
      check_junction_proximity hav lat lon rule [j] = none) := by
  constructor
  · cases js with
    | nil => rfl
    | cons j rest =>
      show junction_scan hav lat lon rule (j :: rest) = _
      exact junction_scan_eq_find hav lat lon rule (j :: rest) hwf
  · intro j hj heq
    have hne : ¬(hav lat lon (j.coords.getD 1 0) (j.coords.getD 0 0) < rule.threshold) := by
      rw [heq]
      exact lt_irrefl _
    show junction_scan hav lat lon rule [j] = none
    rw [junction_scan_eq_find hav lat lon rule [j]
      (fun x hx => by rwa [List.mem_singleton.mp hx])]
    rw [List.find?_cons_of_neg _ (by rw [decide_eq_true_eq]; exact hne), List.find?_nil]
    rfl

/-- Witness for `junction_first_match`: the sample junction at the
billboard's own coordinates fires under a distance model that is zero on
coincident points; confidence caps at 0.9. -/
theorem junction_first_match_witness :
    check_junction_proximity mockDist 30.3555 76.3651 junction_rule [junction_17] =
      some (junction_violation junction_rule 0 "Sector 17 Junction") ∧
    (junction_violation junction_rule 0 "Sector 17 Junction").confidence = 9/10 := by
  have h0 : mockDist 30.3555 76.3651 (junction_17.coords.getD 1 0)
      (junction_17.coords.getD 0 0) = 0 := by
    show mockDist 30.3555 76.3651 30.3555 76.3651 = 0
    simp [mockDist]
  constructor
  · rw [(junction_first_match mockDist 30.3555 76.3651 junction_rule [junction_17]
      (by intro j hj; rw [List.mem_singleton.mp hj]; decide)).1]
    have hpred0 : decide ((0 : ℚ) < junction_rule.threshold) = true := by
      rw [decide_eq_true_eq]
      norm_num [junction_rule]
    simp only [List.find?, h0, hpred0, Option.map_some']
    rfl
  · show min (9/10 : ℚ) ((junction_rule.threshold - 0) / junction_rule.threshold) = 9/10
    rw [show junction_rule.threshold = (50 : ℚ) from rfl,
      show ((50 : ℚ) - 0) / 50 = 1 by norm_num,
      min_eq_left (by norm_num : (9 : ℚ)/10 ≤ 1)]

/-- C10: a non-empty but whitespace-only license id fires both
LICENSE_MISSING and LICENSE_INVALID under the default rules: the
invalid-license guard only tests the raw id for emptiness and then calls the
registry callback on the trimmed (empty) string. -/
theorem blank_license_double_violation (hav : ℚ → ℚ → ℚ → ℚ → ℚ) (s : String)
    (f : String → Bool) (d : Detection) (lat lon : ℚ) (js : List Junction)
    (hd : d.license_id = some s) (hs : s ≠ "") (ht : pyStrip s = "")
    (hf : f "" = false) :
    (∃ v ∈ evaluate_detection hav default_rules d lat lon js (some f),
      v.rule_type = ViolationType.license_missing) ∧
    (∃ v ∈ evaluate_detection hav default_rules d lat lon js (some f),
      v.rule_type = ViolationType.license_invalid) := by
  constructor
  · have hdis : dispatch_rule hav d lat lon js (some f) license_missing_rule = some
        { rule_type := ViolationType.license_missing, severity := 5,
          reason := "No license number detected on billboard", confidence := 8/10,
          metadata := [("ocr_text", MetaVal.optStr d.ocr_text)] } := by
      show check_license_missing d license_missing_rule = _
      simp only [check_license_missing, hd]
      rw [if_pos (by simp [pyFalsyStr, ht])]
      rfl
    exact ⟨_, mem_evaluate_of_dispatch hav default_rules d lat lon js (some f)
      (by simp [default_rules]) rfl hdis, rfl⟩
  · have hdis : dispatch_rule hav d lat lon js (some f) license_invalid_rule = some
        { rule_type := ViolationType.license_invalid, severity := 5,
          reason := "License " ++ s ++ " not found in registry", confidence := 9/10,
          metadata := [("license_id", MetaVal.optStr d.license_id)] } := by
      show check_license_invalid d license_invalid_rule f = _
      simp only [check_license_invalid, hd]
      rw [if_neg hs, ht, hf]
      rw [if_neg (by simp)]
      rfl
    exact ⟨_, mem_evaluate_of_dispatch hav default_rules d lat lon js (some f)
      (by simp [default_rules]) rfl hdis, rfl⟩

/-- Witness for `blank_license_double_violation`: the whitespace-only id
`"   "` with an always-false registry callback produces both violations. -/
theorem blank_license_double_violation_witness :
    (∃ v ∈ evaluate_detection mockDist default_rules (unlicensed_detection (some "   "))
      30.3555 76.3651 [] (some fun _ => false),
      v.rule_type = ViolationType.license_missing) ∧
    (∃ v ∈ evaluate_detection mockDist default_rules (unlicensed_detection (some "   "))
      30.3555 76.3651 [] (some fun _ => false),
      v.rule_type = ViolationType.license_invalid) :=
  blank_license_double_violation mockDist "   " (fun _ => false)
    (unlicensed_detection (some "   ")) 30.3555 76.3651 [] rfl (by decide) (by decide) rfl

/-- C1: at every point the code's polygon test places inside a zone whose
`prohibited` flag is set, `check_location_compliance` reports status
`"prohibited"` and records exactly one violation, of type `prohibited_zone`
and severity 5, for every billboard area argument (including `areaM2 = 0`).
The sensitive-site buffer checks provably cannot fire at any such point, so
the status survives the buffer-violation override of geofence.py 115-116. -/
theorem prohibited_zone_compliance (lat lon area : ℝ)
    (h : ∃ z ∈ restricted_zones, z.prohibited = true ∧
      point_in_polygon lat lon z.coordinates = Except.ok true) :
    (check_location_compliance lat lon area).compliance_status = "prohibited" ∧
    (check_location_compliance lat lon area).violations.length = 1 ∧
    ∀ v ∈ (check_location_compliance lat lon area).violations,
      v.vtype = "prohibited_zone" ∧ v.severity = 5 :=
  check_location_compliance_prohibited lat lon area h

/-- Witness for `prohibited_zone_compliance`: a concrete point inside the
school zone (as the code evaluates containment) with area 0. -/
theorem prohibited_zone_compliance_witness :
    (∃ z ∈ restricted_zones, z.prohibited = true ∧
      point_in_polygon (76.363 : ℝ) (30.355 : ℝ) z.coordinates = Except.ok true) ∧
    (check_location_compliance (76.363 : ℝ) (30.355 : ℝ) 0).compliance_status =
      "prohibited" ∧
    (check_location_compliance (76.363 : ℝ) (30.355 : ℝ) 0).violations.length = 1 := by
  have hpip : point_in_polygon (76.363 : ℝ) (30.355 : ℝ) school_zone.coordinates =
      Except.ok true := by
    rw [show school_zone.coordinates = [((30.3545 : ℝ), (76.3625 : ℝ)), (30.3555, 76.3625),
      (30.3555, 76.3635), (30.3545, 76.3635)] from rfl]
    exact (pip_rect (30.3545 : ℝ) 30.3555 76.3625 76.3635 76.363 30.355
      (by norm_num) (by norm_num)).mpr (by norm_num)
  have hz : ∃ z ∈ restricted_zones, z.prohibited = true ∧
      point_in_polygon (76.363 : ℝ) (30.355 : ℝ) z.coordinates = Except.ok true :=
    ⟨school_zone, by simp [restricted_zones], rfl, hpip⟩
  exact ⟨hz, (prohibited_zone_compliance 76.363 30.355 0 hz).1,
    (prohibited_zone_compliance 76.363 30.355 0 hz).2.1⟩

/-- The overall status of `validate_billboard_location` is always one of the
two literals. -/
theorem overall_status_dichotomy (lat lon area : ℝ) (license_id : Option String) :
    (validate_billboard_location lat lon license_id area).overall_status = "compliant" ∨
    (validate_billboard_location lat lon license_id area).overall_status =
      "non_compliant" := by
  simp only [validate_billboard_location]
  split
  · left
    rfl
  · right
    rfl

/-- C2: the overall status is `"compliant"` iff the location compliance is
`"compliant"` and either no license id was supplied — the code treats the
empty string like an absent id (`if license_id:`) — or the supplied license
is valid in the registry; every other combination is `"non_compliant"`, and
in particular a point in a prohibited zone is overall `"non_compliant"`
whatever the license. -/
theorem overall_status_iff (lat lon area : ℝ) (license_id : Option String) :
    ((validate_billboard_location lat lon license_id area).overall_status =
        "compliant" ↔
      ((check_location_compliance lat lon area).compliance_status = "compliant" ∧
        (license_id = none ∨ license_id = some "" ∨
          ∃ s, license_id = some s ∧ s ≠ "" ∧
            (check_permitted_database s lat lon).license_valid = true))) ∧
    ((validate_billboard_location lat lon license_id area).overall_status =
        "compliant" ∨
      (validate_billboard_location lat lon license_id area).overall_status =
        "non_compliant") ∧
    ((∃ z ∈ restricted_zones, z.prohibited = true ∧
        point_in_polygon lat lon z.coordinates = Except.ok true) →
      (validate_billboard_location lat lon license_id area).overall_status =
        "non_compliant") := by
  refine ⟨?_, overall_status_dichotomy lat lon area license_id, ?_⟩
  · rcases license_id with _ | s
    · by_cases hA : (check_location_compliance lat lon area).compliance_status =
          "compliant" <;>
        simp [validate_billboard_location, hA]
    · by_cases hs : s = ""
      · subst hs
        by_cases hA : (check_location_compliance lat lon area).compliance_status =
            "compliant" <;>
          simp [validate_billboard_location, hA]
      · by_cases hA : (check_location_compliance lat lon area).compliance_status =
            "compliant"
        · by_cases hB : (check_permitted_database s lat lon).license_valid = true <;>
            simp [validate_billboard_location, hA, hB, hs]
        · simp [validate_billboard_location, hA, hs]
  · intro hz
    have hst := (check_location_compliance_prohibited lat lon area hz).1
    simp [validate_billboard_location, hst]

/-- Witness for `overall_status_iff`: at a point the code places inside the
school prohibited zone, carrying the valid active license `LIC-CHD-001`, the
overall status is still `"non_compliant"`. -/
theorem overall_status_iff_witness :
    (validate_billboard_location (76.363 : ℝ) (30.355 : ℝ) (some "LIC-CHD-001")
      0).overall_status = "non_compliant" ∧
    (check_permitted_database "LIC-CHD-001" (76.363 : ℝ) (30.355 : ℝ)).license_valid
      = true := by
  constructor
  · apply (overall_status_iff (76.363 : ℝ) (30.355 : ℝ) 0 (some "LIC-CHD-001")).2.2
    refine ⟨school_zone, by simp [restricted_zones], rfl, ?_⟩
    rw [show school_zone.coordinates = [((30.3545 : ℝ), (76.3625 : ℝ)), (30.3555, 76.3625),
      (30.3555, 76.3635), (30.3545, 76.3635)] from rfl]
    exact (pip_rect (30.3545 : ℝ) 30.3555 76.3625 76.3635 76.363 30.355
      (by norm_num) (by norm_num)).mpr (by norm_num)
  · have hfind : permitted_billboards.find? (fun r => r.license_id = "LIC-CHD-001") =
        some { license_id := "LIC-CHD-001", lat := 30.3555, lon := 76.3651,
               status := "active" } := rfl
    simp only [check_permitted_database, hfind]
    rfl

/-- C4: `check_permitted_database` reports `not_found` with both flags false
when no registry record matches exactly; on a match, `location_match` holds
iff the haversine distance to the registered coordinates is at most 50 m
(inclusive), and `license_valid` holds iff the record status is `active`. -/
theorem permitted_database_spec (license_id : String) (lat lon : ℝ) :
    ((∀ rec ∈ permitted_billboards, rec.license_id ≠ license_id) →
      (check_permitted_database license_id lat lon).database_status = "not_found" ∧
      (check_permitted_database license_id lat lon).license_valid = false ∧
      (check_permitted_database license_id lat lon).location_match = false) ∧
    (∀ rec, permitted_billboards.find? (fun r => r.license_id = license_id) =
        some rec →
      (check_permitted_database license_id lat lon).database_status = "found" ∧
      ((check_permitted_database license_id lat lon).location_match = true ↔
        haversine_distance lat lon rec.lat rec.lon ≤ 50) ∧
      ((check_permitted_database license_id lat lon).license_valid = true ↔
        rec.status = "active")) := by
  constructor
  · intro hall
    have hfind : permitted_billboards.find? (fun r => r.license_id = license_id) =
        none := by
      rw [List.find?_eq_none]
      intro x hx
      simp [hall x hx]
    simp only [check_permitted_database, hfind]
    exact ⟨trivial, trivial, trivial⟩
  · intro rec hfind
    simp only [check_permitted_database, hfind]
    exact ⟨trivial, decide_eq_true_iff, decide_eq_true_iff⟩

/-- Witness for `permitted_database_spec`: `LIC-CHD-001` queried at its own
registered coordinates matches (distance exactly 0 ≤ 50) and is valid. -/
theorem permitted_database_spec_witness :
    (check_permitted_database "LIC-CHD-001" (30.3555 : ℝ) (76.3651 : ℝ)).database_status
      = "found" ∧
    (check_permitted_database "LIC-CHD-001" (30.3555 : ℝ) (76.3651 : ℝ)).location_match
      = true ∧
    (check_permitted_database "LIC-CHD-001" (30.3555 : ℝ) (76.3651 : ℝ)).license_valid
      = true := by
  have hfind : permitted_billboards.find? (fun r => r.license_id = "LIC-CHD-001") =
      some { license_id := "LIC-CHD-001", lat := 30.3555, lon := 76.3651,
             status := "active" } := rfl
  have h := (permitted_database_spec "LIC-CHD-001" (30.3555 : ℝ) (76.3651 : ℝ)).2 _ hfind
  refine ⟨h.1, h.2.1.mpr ?_, h.2.2.mpr rfl⟩
  show haversine_distance (30.3555 : ℝ) (76.3651 : ℝ) 30.3555 76.3651 ≤ 50
  rw [haversine_distance_self]
  norm_num

/-- C5 (amended): the polygon test performs no vertex-count validation.
With zero vertices it fails with the `IndexError` of `polygon[0]`, not an
`InvalidGeometry` error; with one or two vertices the ray cast runs and
returns the boolean `false`. -/
theorem pip_small_polygons (lat lon : ℚ) (p q : ℚ × ℚ) :
    point_in_polygon lat lon ([] : List (ℚ × ℚ)) =
      Except.error "IndexError: list index out of range" ∧
    point_in_polygon lat lon [p] = Except.ok false ∧
    point_in_polygon lat lon [p, q] = Except.ok false := by
  refine ⟨rfl, ?_, ?_⟩
  · rcases p with ⟨px, py⟩
    show (pipGo lon lat [((px, py), (px, py))] (false, none)).map Prod.fst =
      Except.ok false
    have s1 : pipStep lon lat (px, py) (px, py) ((false : Bool), (none : Option ℚ)) =
        Except.ok (false, none) := by
      simp only [pipStep]
      rw [if_neg]
      rintro ⟨h1, h2, -⟩
      rw [min_self] at h1
      rw [max_self] at h2
      exact absurd h2 (not_le.mpr h1)
    simp [pipGo, s1, Except.map]
  · rcases p with ⟨px, py⟩
    rcases q with ⟨qx, qy⟩
    show (pipGo lon lat [((px, py), (qx, qy)), ((qx, qy), (px, py))]
      (false, none)).map Prod.fst = Except.ok false
    by_cases hg : lat > min py qy ∧ lat ≤ max py qy ∧ lon ≤ max px qx
    · have hne : py ≠ qy := by
        rintro rfl
        rcases hg with ⟨u, w, -⟩
        rw [min_self] at u
        rw [max_self] at w
        exact absurd w (not_le.mpr u)
      have hg2 : lat > min qy py ∧ lat ≤ max qy py ∧ lon ≤ max qx px := by
        rwa [min_comm qy py, max_comm qy py, max_comm qx px]
      have hv : (lat - qy) * (px - qx) / (py - qy) + qx =
          (lat - py) * (qx - px) / (qy - py) + px := by
        have h1 : qy - py ≠ 0 := sub_ne_zero.mpr (Ne.symm hne)
        have h2 : py - qy ≠ 0 := sub_ne_zero.mpr hne
        field_simp
        ring
      by_cases hx : px = qx
      · have s1 : pipStep lon lat (px, py) (qx, qy) ((false : Bool), (none : Option ℚ)) =
            Except.ok (true, some ((lat - py) * (qx - px) / (qy - py) + px)) := by
          simp only [pipStep]
          rw [if_pos hg, if_pos hne, if_pos hx]
          rfl
        have s2 : pipStep lon lat (qx, qy) (px, py)
            ((true : Bool), (some ((lat - py) * (qx - px) / (qy - py) + px) : Option ℚ)) =
            Except.ok (false, some ((lat - qy) * (px - qx) / (py - qy) + qx)) := by
          simp only [pipStep]
          rw [if_pos hg2, if_pos (Ne.symm hne), if_pos hx.symm]
          rfl
        simp [pipGo, s1, s2, Except.map]
      · by_cases hlon : lon ≤ (lat - py) * (qx - px) / (qy - py) + px
        · have s1 : pipStep lon lat (px, py) (qx, qy)
              ((false : Bool), (none : Option ℚ)) =
              Except.ok (true, some ((lat - py) * (qx - px) / (qy - py) + px)) := by
            simp only [pipStep]
            rw [if_pos hg, if_pos hne, if_neg hx]
            simp [hlon]
          have s2 : pipStep lon lat (qx, qy) (px, py)
              ((true : Bool),
                (some ((lat - py) * (qx - px) / (qy - py) + px) : Option ℚ)) =
              Except.ok (false, some ((lat - py) * (qx - px) / (qy - py) + px)) := by
            simp only [pipStep]
            rw [hv, if_pos hg2, if_pos (Ne.symm hne),
              if_neg (fun hh => hx hh.symm)]
            simp [hlon]
          simp [pipGo, s1, s2, Except.map]
        · have s1 : pipStep lon lat (px, py) (qx, qy)
              ((false : Bool), (none : Option ℚ)) =
              Except.ok (false, some ((lat - py) * (qx - px) / (qy - py) + px)) := by
            simp only [pipStep]
            rw [if_pos hg, if_pos hne, if_neg hx]
            simp [hlon]
          have s2 : pipStep lon lat (qx, qy) (px, py)
              ((false : Bool),
                (some ((lat - py) * (qx - px) / (qy - py) + px) : Option ℚ)) =
              Except.ok (false, some ((lat - py) * (qx - px) / (qy - py) + px)) := by
            simp only [pipStep]
            rw [hv, if_pos hg2, if_pos (Ne.symm hne),
              if_neg (fun hh => hx hh.symm)]
            simp [hlon]
          simp [pipGo, s1, s2, Except.map]
    · have hg2 : ¬(lat > min qy py ∧ lat ≤ max qy py ∧ lon ≤ max qx px) := by
        rwa [min_comm qy py, max_comm qy py, max_comm qx px]
      have s1 : pipStep lon lat (px, py) (qx, qy) ((false : Bool), (none : Option ℚ)) =
          Except.ok (false, none) := by
        simp only [pipStep]
        rw [if_neg hg]
      have s2 : pipStep lon lat (qx, qy) (px, py) ((false : Bool), (none : Option ℚ)) =
          Except.ok (false, none) := by
        simp only [pipStep]
        rw [if_neg hg2]
      simp [pipGo, s1, s2, Except.map]

/-- Counterexample to C5 as stated: a two-vertex polygon (and a one-vertex
polygon) makes `_point_in_polygon` return the boolean `False`; no
`InvalidGeometry` failure occurs. -/
theorem pip_small_polygons_counterexample :
    point_in_polygon (0 : ℚ) 0 [((0 : ℚ), (0 : ℚ)), (1, 1)] = Except.ok false ∧
    point_in_polygon (0 : ℚ) 0 [((2 : ℚ), (3 : ℚ))] = Except.ok false := by
  exact ⟨(pip_small_polygons 0 0 (0, 0) (1, 1)).2.2,
    (pip_small_polygons 0 0 (2, 3) (1, 1)).2.1⟩

end BillboardSentinel
